import Mathlib

/-!
Verification of the BBMRI-ERIC directory-to-FHIR synchronisation core
(`src/main.py`).  The Python source is shallowly embedded: decoded JSON
payloads become values of an inductive `JSON` type, Python's fallible
attribute accesses and enum indexing become `Except String` computations
(the error string names the Python exception class that would be raised),
and the three entity builders plus the three sync entry points are
translated line by line.  The external `miabis_model` library (out of
scope for the repository, specified only at its boundary) is modelled by
entity structures holding the constructor arguments exactly as passed,
together with a validation predicate parameter: the constructor raises
`ValueError` exactly when the predicate rejects the argument bundle.
-/

namespace DirectoryFhir

/-- A decoded JSON value, as produced by Python's `json.loads`:
`null`/`None`, booleans, numbers (the payloads relevant here carry
integers), strings, arrays (Python lists) and objects (Python dicts,
represented as association lists with distinct keys). -/
inductive JSON where
  | null : JSON
  | bool : Bool → JSON
  | num : Int → JSON
  | str : String → JSON
  | arr : List JSON → JSON
  | obj : List (String × JSON) → JSON

/-- Lookup of a key in the field list of a JSON object (Python dict
lookup; keys are distinct, so first match is the match). -/
def lookupField (fs : List (String × JSON)) (k : String) : Option JSON :=
  match fs with
  | [] => none
  | (k2, v) :: rest => if k2 = k then some v else lookupField rest k

/-- Python `d.get(k, default)`: on a dict, the stored value if the key is
present (a stored JSON null is returned as `JSON.null`), otherwise the
default; on any non-dict value the attribute access `.get` raises
`AttributeError`. -/
def pyGetD (v : JSON) (k : String) (d : JSON) : Except String JSON :=
  match v with
  | JSON.obj fs => Except.ok ((lookupField fs k).getD d)
  | _ => Except.error "AttributeError"

/-- Python `d.get(k)`: default `None`. -/
def pyGet (v : JSON) (k : String) : Except String JSON :=
  pyGetD v k JSON.null

/-- Python truthiness of a decoded JSON value: `None`, `False`, `0`, the
empty string, the empty list and the empty dict are falsy. -/
def truthy : JSON → Bool
  | JSON.null => false
  | JSON.bool b => b
  | JSON.num n => n != 0
  | JSON.str s => s != ""
  | JSON.arr xs => !xs.isEmpty
  | JSON.obj fs => !fs.isEmpty

/-- Python `a or b`: `a` if truthy, else `b`. -/
def pyOr (a b : JSON) : JSON :=
  if truthy a then a else b

/-- Python iteration `for x in v`: lists yield their elements, dicts
their keys, strings their characters; `None`, booleans and numbers are
not iterable (`TypeError`). -/
def pyIterList : JSON → Except String (List JSON)
  | JSON.arr xs => Except.ok xs
  | JSON.obj fs => Except.ok (fs.map fun p => JSON.str p.1)
  | JSON.str s => Except.ok (s.data.map fun c => JSON.str (String.mk [c]))
  | _ => Except.error "TypeError"

/-- Python `s.upper()` on a string: uppercase each character (the
tokens in play are ASCII). -/
def pyUpperStr (s : String) : String :=
  String.mk (s.data.map Char.toUpper)

/-- Python `v.upper()`: defined on strings only (`AttributeError`
otherwise). -/
def pyUpper : JSON → Except String String
  | JSON.str s => Except.ok (pyUpperStr s)
  | _ => Except.error "AttributeError"

/-- Python `v == s` for a string literal `s`: true exactly when `v` is
that string (no JSON value of another type compares equal to a
string). -/
def pyEqStr (v : JSON) (s : String) : Bool :=
  match v with
  | JSON.str t => t == s
  | _ => false

/-- Python `v is None`. -/
def isNone : JSON → Bool
  | JSON.null => true
  | _ => false

/-- Modelled from the spec: the destination model's fixed `Gender`
enumeration (`miabis_model.Gender`, external modeling library, §3/§6
boundary).  The spec fixes a closed set of gender categories including a
canonical "unknown" member onto which the not-available/not-asked
synonyms collapse. -/
inductive Gender where
  | MALE : Gender
  | FEMALE : Gender
  | UNDIFFERENTIATED : Gender
  | UNKNOWN : Gender
deriving DecidableEq

/-- Python `Gender[s]` (enum indexing by member name): `KeyError` when
the name is not a member. -/
def genderIndex (s : String) : Except String Gender :=
  if s = "MALE" then Except.ok Gender.MALE
  else if s = "FEMALE" then Except.ok Gender.FEMALE
  else if s = "UNDIFFERENTIATED" then Except.ok Gender.UNDIFFERENTIATED
  else if s = "UNKNOWN" then Except.ok Gender.UNKNOWN
  else Except.error "KeyError"

/-- Modelled from the spec: the destination model's fixed
`StorageTemperature` enumeration (`miabis_model.StorageTemperature`,
external modeling library, §3/§6 boundary).  Its members are storage
temperature codes; material-type tokens such as `PLASMA` or `DNA` are
not among them. -/
inductive StorageTemperature where
  | temperature2to10 : StorageTemperature
  | temperatureMinus18toMinus35 : StorageTemperature
  | temperatureMinus60toMinus85 : StorageTemperature
  | temperatureGN : StorageTemperature
  | temperatureLN : StorageTemperature
  | temperatureRoom : StorageTemperature
  | temperatureOther : StorageTemperature
deriving DecidableEq

/-- Python `StorageTemperature[v]` (enum indexing): succeeds only when
`v` is the string name of a member, otherwise `KeyError`. -/
def storageTemperatureIndex (v : JSON) : Except String StorageTemperature :=
  match v with
  | JSON.str s =>
      if s = "TEMPERATURE_2_TO_10" then Except.ok StorageTemperature.temperature2to10
      else if s = "TEMPERATURE_MINUS_18_TO_MINUS_35" then Except.ok StorageTemperature.temperatureMinus18toMinus35
      else if s = "TEMPERATURE_MINUS_60_TO_MINUS_85" then Except.ok StorageTemperature.temperatureMinus60toMinus85
      else if s = "TEMPERATURE_GN" then Except.ok StorageTemperature.temperatureGN
      else if s = "TEMPERATURE_LN" then Except.ok StorageTemperature.temperatureLN
      else if s = "TEMPERATURE_ROOM" then Except.ok StorageTemperature.temperatureRoom
      else if s = "TEMPERATURE_OTHER" then Except.ok StorageTemperature.temperatureOther
      else Except.error "KeyError"
  | _ => Except.error "KeyError"

/-- The argument bundle of `miabis_model.Collection(...)` exactly as the
builder passes it (src/main.py lines 57-71); field values are the raw
Python values handed to the external constructor. -/
structure Collection where
  identifier : JSON
  name : JSON
  managing_biobank_id : JSON
  contact_name : JSON
  contact_surname : JSON
  contact_email : JSON
  country : JSON
  genders : List Gender
  material_types : List JSON
  age_range_low : JSON
  age_range_high : JSON
  diagnoses : List JSON
  description : JSON

/-- src/main.py line 32: the comprehension
`[StorageTemperature[st.get("name")] for st in sample_types if st.get("name")]`;
the filter evaluates `st.get("name")` first, then the element expression
evaluates it again and indexes the `StorageTemperature` enum with it. -/
def computeMaterialTypes : List JSON → Except String (List StorageTemperature)
  | [] => Except.ok []
  | st :: rest => do
      let n ← pyGet st "name"
      if truthy n then do
        let n2 ← pyGet st "name"
        let m ← storageTemperatureIndex n2
        let others ← computeMaterialTypes rest
        pure (m :: others)
      else
        computeMaterialTypes rest

/-- src/main.py lines 41-45: the gender comprehension.  The element
expression is
`Gender[("UNKNOWN" if (name := g.get("name")) == "NAV" or "NASK" else name).upper()]`;
by precedence the condition is `((name := g.get("name")) == "NAV") or "NASK"`,
whose second operand is the non-empty (truthy) string `"NASK"`.  The
filter is `if g.get("name") is not None`. -/
def genderToken (name : JSON) : JSON :=
  if truthy (pyOr (JSON.bool (pyEqStr name "NAV")) (JSON.str "NASK"))
  then JSON.str "UNKNOWN" else name

/-- The comprehension of src/main.py lines 41-45 over the `sex` list,
with the element expression factored as `genderToken`. -/
def computeGenders : List JSON → Except String (List Gender)
  | [] => Except.ok []
  | g :: rest => do
      let filterVal ← pyGet g "name"
      if isNone filterVal then
        computeGenders rest
      else do
        let name ← pyGet g "name"
        let up ← pyUpper (genderToken name)
        let mem ← genderIndex up
        let others ← computeGenders rest
        pure (mem :: others)

/-- src/main.py line 50:
`[d.get("code") for d in diagnoses if d.get("code")]`. -/
def computeDiagnosisCodes : List JSON → Except String (List JSON)
  | [] => Except.ok []
  | d :: rest => do
      let c ← pyGet d "code"
      if truthy c then do
        let c2 ← pyGet d "code"
        let others ← computeDiagnosisCodes rest
        pure (c2 :: others)
      else
        computeDiagnosisCodes rest

/-- src/main.py line 53:
`[m.get("name") for m in material_types if m.get("name")]` — but
`material_types` holds `StorageTemperature` enum members (line 32), and
an enum member has no `.get` attribute, so any non-empty list raises
`AttributeError`. -/
def computeMaterialTypeCodes : List StorageTemperature → Except String (List JSON)
  | [] => Except.ok []
  | _ :: _ => Except.error "AttributeError"

/-- src/main.py lines 21-53: the per-record field extraction of
`populate_collection_from_json`, in source order, producing the argument
bundle passed to the `Collection` constructor. -/
def extractCollection (r : JSON) : Except String Collection := do
  let identifier ← pyGetD r "id" (JSON.str "")
  let name ← pyGetD r "name" (JSON.str "")
  let description ← pyGetD r "description" (JSON.str "unknown")
  let contact_info ← pyGetD r "contact" (JSON.obj [])
  let countryNode ← pyGetD r "country" (JSON.obj [])
  let country ← pyGetD countryNode "name" (JSON.str "unknown")
  let sex ← pyGetD r "sex" (JSON.arr [])
  let age_low ← pyGet r "age_low"
  let age_high ← pyGet r "age_high"
  let _storage_temperatures ← pyGetD r "storage_temperatures" (JSON.arr [])
  let diagnoses ← pyGetD r "diagnosis_available" (JSON.arr [])
  let sample_types ← pyGetD r "materials" (JSON.arr [])
  let sampleTypeList ← pyIterList sample_types
  let material_types ← computeMaterialTypes sampleTypeList
  let biobankNode ← pyGetD r "biobank" (JSON.obj [])
  let managing_biobank_id ← pyGetD biobankNode "id" (JSON.str "")
  let contact_name ← pyGetD contact_info "first_name" (JSON.str "unknown")
  let contact_surname ← pyGetD contact_info "last_name" (JSON.str "unknown")
  let contact_email ← pyGetD contact_info "email" (JSON.str "unknown")
  let sexList ← pyIterList sex
  let genders ← computeGenders sexList
  let diagList ← pyIterList diagnoses
  let diagnosis_codes ← computeDiagnosisCodes diagList
  let material_type_codes ← computeMaterialTypeCodes material_types
  pure { identifier := identifier, name := name,
         managing_biobank_id := managing_biobank_id,
         contact_name := contact_name, contact_surname := contact_surname,
         contact_email := contact_email, country := country,
         genders := genders, material_types := material_type_codes,
         age_range_low := age_low, age_range_high := age_high,
         diagnoses := diagnosis_codes, description := description }

/-- src/main.py lines 56-76: the constructor call under
`try ... except ValueError: continue`.  The external constructor is
modelled by the validation parameter `valid`: `some` is an appended
entity, `none` a record skipped on `ValueError`; extraction errors
outside the `try` propagate. -/
def buildCollectionRecord (valid : Collection → Bool) (r : JSON) :
    Except String (Option Collection) := do
  let c ← extractCollection r
  if valid c then pure (some c) else pure none

/-- The record loop of `populate_collection_from_json`. -/
def populateCollectionGo (valid : Collection → Bool) :
    List JSON → Except String (List Collection)
  | [] => Except.ok []
  | r :: rest => do
      let o ← buildCollectionRecord valid r
      let others ← populateCollectionGo valid rest
      match o with
      | some c => pure (c :: others)
      | none => pure others

/-- src/main.py lines 11-78: `populate_collection_from_json` on the
decoded payload (`json.loads` of the argument string is modelled as the
decoded `JSON` value itself). -/
def populate_collection_from_json (valid : Collection → Bool) (payload : JSON) :
    Except String (List Collection) := do
  let dataNode ← pyGetD payload "data" (JSON.obj [])
  let recsNode ← pyGetD dataNode "Collections" (JSON.arr [])
  let recs ← pyIterList recsNode
  populateCollectionGo valid recs

/-- Python `str.split(sep)` for a one-character separator, at the
character-list level, accumulating the current segment: every separator
occurrence produces a boundary, empty segments are kept, nothing is
trimmed. -/
def splitCharsAux (sep : Char) : List Char → List Char → List (List Char)
  | [], acc => [acc]
  | c :: cs, acc =>
      if c = sep then acc :: splitCharsAux sep cs []
      else splitCharsAux sep cs (acc ++ [c])

/-- Python `",".join`-style interleaving at the character-list level. -/
def joinChars (sep : Char) : List (List Char) → List Char
  | [] => []
  | [x] => x
  | x :: xs => x ++ sep :: joinChars sep xs

/-- Python `s.split(sep)` on strings (one-character separator). -/
def pySplit (sep : Char) (s : String) : List String :=
  (splitCharsAux sep s.data []).map String.mk

/-- Python `sep.join(xs)` on strings (one-character separator). -/
def pyJoin (sep : Char) (xs : List String) : String :=
  String.mk (joinChars sep (xs.map String.data))

/-- Python `v.split(",")`: defined on strings only (`AttributeError`
otherwise). -/
def pySplitComma (v : JSON) : Except String (List String) :=
  match v with
  | JSON.str s => Except.ok (pySplit ',' s)
  | _ => Except.error "AttributeError"

/-- The argument bundle of `miabis_model.Network(...)` exactly as the
builder passes it (src/main.py lines 115-128). -/
structure Network where
  identifier : JSON
  name : JSON
  managing_biobank_id : JSON
  contact_email : JSON
  country : JSON
  juristic_person : JSON
  members_collections_ids : List JSON
  members_biobanks_ids : List JSON
  contact_name : JSON
  contact_surname : JSON
  common_collaboration_topics : List String
  description : JSON

/-- src/main.py line 104: the collaboration topics,
`r.get("common_network_elements", "").split(",") if r.get("common_network_elements") else []`
(the condition re-reads the field without a default and tests its
truthiness). -/
def computeTopics (r : JSON) : Except String (List String) := do
  let condVal ← pyGet r "common_network_elements"
  if truthy condVal then do
    let v ← pyGetD r "common_network_elements" (JSON.str "")
    pySplitComma v
  else
    pure []

/-- src/main.py lines 97-112: the per-record field extraction of
`populate_network_from_json`, in source order; line 112 hardcodes the
managing biobank identifier. -/
def extractNetwork (r : JSON) : Except String Network := do
  let identifier ← pyGetD r "id" (JSON.str "")
  let name ← pyGetD r "name" (JSON.str "")
  let description ← pyGetD r "description" (JSON.str "")
  let juristic_person ← pyGetD r "juridical_person" (JSON.str "unknown")
  let contact_info ← pyGetD r "contact" (JSON.obj [])
  let country ← pyGetD r "national_node" (JSON.str "unknown")
  let common_collaboration_topics ← computeTopics r
  let contact_name ← pyGetD contact_info "first_name" (JSON.str "unknown")
  let contact_surname ← pyGetD contact_info "last_name" (JSON.str "unknown")
  let contact_email ← pyGetD contact_info "email" (JSON.str "unknown")
  pure { identifier := identifier, name := name,
         managing_biobank_id := JSON.str "bbmri-eric:ID:AT_MUG",
         contact_email := contact_email, country := country,
         juristic_person := juristic_person,
         members_collections_ids := [], members_biobanks_ids := [],
         contact_name := contact_name, contact_surname := contact_surname,
         common_collaboration_topics := common_collaboration_topics,
         description := description }

/-- src/main.py lines 115-128: the `Network(...)` constructor call.  It
is not wrapped in any `try`: a `ValueError` raised by the external
constructor's validation propagates out of the builder. -/
def buildNetworkRecord (valid : Network → Bool) (r : JSON) :
    Except String Network := do
  let n ← extractNetwork r
  if valid n then pure n else Except.error "ValueError"

/-- The record loop of `populate_network_from_json` (no per-record error
recovery). -/
def populateNetworkGo (valid : Network → Bool) :
    List JSON → Except String (List Network)
  | [] => Except.ok []
  | r :: rest => do
      let n ← buildNetworkRecord valid r
      let others ← populateNetworkGo valid rest
      pure (n :: others)

/-- src/main.py lines 91-132: `populate_network_from_json`. -/
def populate_network_from_json (valid : Network → Bool) (payload : JSON) :
    Except String (List Network) := do
  let dataNode ← pyGetD payload "data" (JSON.obj [])
  let recsNode ← pyGetD dataNode "Networks" (JSON.arr [])
  let recs ← pyIterList recsNode
  populateNetworkGo valid recs

/-- The argument bundle of `miabis_model.Biobank(...)` exactly as the
builder passes it (src/main.py lines 157-167). -/
structure Biobank where
  identifier : JSON
  name : JSON
  biobank_alias : JSON
  country : JSON
  contact_name : JSON
  contact_surname : JSON
  contact_email : JSON
  quality__management_standards : List JSON
  description : JSON

/-- src/main.py lines 79-89: `fetch_quality_names`, walking the quality
declarations and collecting each truthy `quality_standard.name`. -/
def fetch_quality_names : List JSON → Except String (List JSON)
  | [] => Except.ok []
  | item :: rest => do
      let quality_standard ← pyGetD item "quality_standard" (JSON.obj [])
      let name ← pyGet quality_standard "name"
      if truthy name then do
        let others ← fetch_quality_names rest
        pure (name :: others)
      else
        fetch_quality_names rest

/-- src/main.py lines 141-154: the per-record field extraction of
`populate_biobank_from_json`, in source order. -/
def extractBiobank (r : JSON) : Except String Biobank := do
  let identifier ← pyGetD r "id" (JSON.str "")
  let name ← pyGetD r "name" (JSON.str "")
  let aliasVal ← pyGetD r "acronym" (JSON.str "unknown")
  let countryNode ← pyGetD r "country" (JSON.obj [])
  let country ← pyGetD countryNode "name" (JSON.str "")
  let description ← pyGetD r "description" (JSON.str "")
  let contact_info ← pyGetD r "contact" (JSON.obj [])
  let contact_name ← pyGetD contact_info "first_name" (JSON.str "unknown")
  let contact_surname ← pyGetD contact_info "last_name" (JSON.str "unknown")
  let contact_email ← pyGetD contact_info "email" (JSON.str "unknown")
  let qualityNode ← pyGetD r "quality" (JSON.arr [])
  let qualityList ← pyIterList qualityNode
  let quality__management_standards ← fetch_quality_names qualityList
  pure { identifier := identifier, name := name, biobank_alias := aliasVal,
         country := country, contact_name := contact_name,
         contact_surname := contact_surname, contact_email := contact_email,
         quality__management_standards := quality__management_standards,
         description := description }

/-- src/main.py lines 157-167: the `Biobank(...)` constructor call,
also not wrapped in any `try`. -/
def buildBiobankRecord (valid : Biobank → Bool) (r : JSON) :
    Except String Biobank := do
  let b ← extractBiobank r
  if valid b then pure b else Except.error "ValueError"

/-- The record loop of `populate_biobank_from_json` (no per-record error
recovery). -/
def populateBiobankGo (valid : Biobank → Bool) :
    List JSON → Except String (List Biobank)
  | [] => Except.ok []
  | r :: rest => do
      let b ← buildBiobankRecord valid r
      let others ← populateBiobankGo valid rest
      pure (b :: others)

/-- src/main.py lines 134-171: `populate_biobank_from_json`. -/
def populate_biobank_from_json (valid : Biobank → Bool) (payload : JSON) :
    Except String (List Biobank) := do
  let dataNode ← pyGetD payload "data" (JSON.obj [])
  let recsNode ← pyGetD dataNode "Biobanks" (JSON.arr [])
  let recs ← pyIterList recsNode
  populateBiobankGo valid recs

/-- The one HTTP response a sync function receives from its single
`requests.post` call: status code, `response.text` and the decoded
`response.json()` body. -/
structure HTTPResponse where
  status_code : Nat
  text : String
  jsonBody : JSON

/-- Outcome of one sync run.  `fetchFailed status body` is the
`else`-branch report `"Failed to fetch data: {status} - {text}"` (no
builder call, nothing published); `completed entities` is the successful
path, with the listed entities uploaded one by one, in list order,
through the external Blaze client; `crashed e` is an uncaught Python
exception `e` escaping the builder before any upload. -/
inductive SyncResult (α : Type) where
  | fetchFailed : Nat → String → SyncResult α
  | crashed : String → SyncResult α
  | completed : List α → SyncResult α

/-- src/main.py lines 258-278: `sync_biobanks` (one fetch, no retry;
`json.dumps`/`json.loads` round-tripping of the decoded body is the
identity). -/
def sync_biobanks (valid : Biobank → Bool) (resp : HTTPResponse) :
    SyncResult Biobank :=
  if resp.status_code = 200 then
    match populate_biobank_from_json valid resp.jsonBody with
    | Except.ok bs => SyncResult.completed bs
    | Except.error e => SyncResult.crashed e
  else
    SyncResult.fetchFailed resp.status_code resp.text

/-- src/main.py lines 317-336: `sync_networks`. -/
def sync_networks (valid : Network → Bool) (resp : HTTPResponse) :
    SyncResult Network :=
  if resp.status_code = 200 then
    match populate_network_from_json valid resp.jsonBody with
    | Except.ok ns => SyncResult.completed ns
    | Except.error e => SyncResult.crashed e
  else
    SyncResult.fetchFailed resp.status_code resp.text

/-- src/main.py lines 338-356: `sync_collections`. -/
def sync_collections (valid : Collection → Bool) (resp : HTTPResponse) :
    SyncResult Collection :=
  if resp.status_code = 200 then
    match populate_collection_from_json valid resp.jsonBody with
    | Except.ok cs => SyncResult.completed cs
    | Except.error e => SyncResult.crashed e
  else
    SyncResult.fetchFailed resp.status_code resp.text

/-- Count of sex-list entries whose `name` key yields a non-`None`
value (the entries the filter of the gender comprehension keeps). -/
def countNonNullNames : List JSON → Nat
  | [] => 0
  | g :: rest =>
      match pyGet g "name" with
      | Except.ok JSON.null => countNonNullNames rest
      | _ => countNonNullNames rest + 1

/-- Count of records the collection builder skips through its
`except ValueError: continue` handler. -/
def countSkippedCollections (valid : Collection → Bool) (recs : List JSON) : Nat :=
  recs.countP fun r =>
    match buildCollectionRecord valid r with
    | Except.ok none => true
    | _ => false

/-- The per-record outcome of the collection builder, as an `Option`:
`some` an entity, `none` a skipped or crashing record. -/
def collectionRecordOutcome (valid : Collection → Bool) (r : JSON) : Option Collection :=
  match buildCollectionRecord valid r with
  | Except.ok (some c) => some c
  | _ => none

/-- Modelled from the spec: one admissible instance of the external
model library's validation boundary (§4.3), reporting a domain error
exactly on an empty required identifier. -/
def rejectEmptyIdNetwork : Network → Bool := fun n => !(pyEqStr n.identifier "")

/-- Modelled from the spec: the empty-identifier validation instance for
collections (§4.3). -/
def rejectEmptyIdCollection : Collection → Bool := fun c => !(pyEqStr c.identifier "")

/-- A record whose optional fields are all absent except an `id`. -/
def idOnlyRecord (i : String) : JSON := JSON.obj [("id", JSON.str i)]

/-- The Collection argument bundle the builder produces from a record
carrying only an `id`: every other field takes its declared default. -/
def idOnlyCollection (i : String) : Collection :=
  { identifier := JSON.str i, name := JSON.str "",
    managing_biobank_id := JSON.str "",
    contact_name := JSON.str "unknown", contact_surname := JSON.str "unknown",
    contact_email := JSON.str "unknown", country := JSON.str "unknown",
    genders := [], material_types := [],
    age_range_low := JSON.null, age_range_high := JSON.null,
    diagnoses := [], description := JSON.str "unknown" }

/-- The Network argument bundle the builder produces from a record
carrying only an `id`. -/
def idOnlyNetwork (i : String) : Network :=
  { identifier := JSON.str i, name := JSON.str "",
    managing_biobank_id := JSON.str "bbmri-eric:ID:AT_MUG",
    contact_email := JSON.str "unknown", country := JSON.str "unknown",
    juristic_person := JSON.str "unknown",
    members_collections_ids := [], members_biobanks_ids := [],
    contact_name := JSON.str "unknown", contact_surname := JSON.str "unknown",
    common_collaboration_topics := [], description := JSON.str "" }

/-- The Biobank argument bundle built from a record with a `name` only:
the absent `id` defaults to the empty string. -/
def namedOnlyBiobank (nm : String) : Biobank :=
  { identifier := JSON.str "", name := JSON.str nm,
    biobank_alias := JSON.str "unknown", country := JSON.str "",
    contact_name := JSON.str "unknown", contact_surname := JSON.str "unknown",
    contact_email := JSON.str "unknown",
    quality__management_standards := [], description := JSON.str "" }

/-- Two-record Networks payload: the first record has an empty `id`
(fails the empty-identifier validation), the second a non-empty one. -/
def c2payload : JSON :=
  JSON.obj [("data", JSON.obj [("Networks",
    JSON.arr [JSON.obj [("id", JSON.str "")], idOnlyRecord "N2"])])]

/-- Collection record whose `materials` list carries the material-type
token `DNA`, which has no `StorageTemperature` member. -/
def c3recBad : JSON :=
  JSON.obj [("id", JSON.str "c1"),
            ("materials", JSON.arr [JSON.obj [("name", JSON.str "DNA")]])]

/-- Two-record Collections payload: an unmappable-materials record
followed by a well-formed one. -/
def c3payload : JSON :=
  JSON.obj [("data", JSON.obj [("Collections",
    JSON.arr [c3recBad, idOnlyRecord "c2"])])]

/-- The §8 example record: `sex: [{"name": "NAV"}, {"name": "FEMALE"}]`,
`age_low: 0`, `age_high` absent, `materials: [{"name": "PLASMA"}]`. -/
def c4rec : JSON :=
  JSON.obj [("sex", JSON.arr [JSON.obj [("name", JSON.str "NAV")],
                              JSON.obj [("name", JSON.str "FEMALE")]]),
            ("age_low", JSON.num 0),
            ("materials", JSON.arr [JSON.obj [("name", JSON.str "PLASMA")]])]

/-- Collections payload holding only the §8 example record. -/
def c4payload : JSON :=
  JSON.obj [("data", JSON.obj [("Collections", JSON.arr [c4rec])])]

/-- Biobanks payload with one record that has a `name` but no `id`. -/
def c7payload : JSON :=
  JSON.obj [("data", JSON.obj [("Biobanks",
    JSON.arr [JSON.obj [("name", JSON.str "Biobank Graz")]])])]

/-- One-record Networks payload. -/
def c8payload : JSON :=
  JSON.obj [("data", JSON.obj [("Networks", JSON.arr [idOnlyRecord "net1"])])]

/-- Network record whose `common_network_elements` string holds spaces
and an empty segment around its commas. -/
def c10rec : JSON :=
  JSON.obj [("id", JSON.str "n1"),
            ("common_network_elements", JSON.str "a, b,,c")]

/-- The Network argument bundle built from `c10rec`. -/
def c10net : Network :=
  { identifier := JSON.str "n1", name := JSON.str "",
    managing_biobank_id := JSON.str "bbmri-eric:ID:AT_MUG",
    contact_email := JSON.str "unknown", country := JSON.str "unknown",
    juristic_person := JSON.str "unknown",
    members_collections_ids := [], members_biobanks_ids := [],
    common_collaboration_topics := ["a", " b", "", "c"],
    contact_name := JSON.str "unknown", contact_surname := JSON.str "unknown",
    description := JSON.str "" }

theorem except_bind_ok {ε α β : Type} (x : Except ε α) (f : α → Except ε β) (b : β) :
    (x >>= f = Except.ok b) ↔ ∃ a, x = Except.ok a ∧ f a = Except.ok b := by
  cases x <;> simp [Bind.bind, Except.bind]

theorem pure_ok {ε α : Type} (a : α) : (pure a : Except ε α) = Except.ok a := rfl

theorem genderToken_unknown (v : JSON) : genderToken v = JSON.str "UNKNOWN" := by
  unfold genderToken pyOr
  cases hb : pyEqStr v "NAV" <;> simp [truthy, hb]

theorem buildCollectionRecord_ok_some (valid : Collection → Bool) (r : JSON)
    (c : Collection) (h : buildCollectionRecord valid r = Except.ok (some c)) :
    extractCollection r = Except.ok c := by
  rw [buildCollectionRecord, except_bind_ok] at h
  obtain ⟨a, ha, hif⟩ := h
  split at hif <;> simp only [pure_ok, Except.ok.injEq, Option.some.injEq] at hif
  · rw [ha, hif]
  · exact absurd hif (by simp)

theorem buildNetworkRecord_ok (valid : Network → Bool) (r : JSON)
    (n : Network) (h : buildNetworkRecord valid r = Except.ok n) :
    extractNetwork r = Except.ok n := by
  rw [buildNetworkRecord, except_bind_ok] at h
  obtain ⟨a, ha, hif⟩ := h
  split at hif
  · simp only [pure_ok, Except.ok.injEq] at hif
    rw [ha, hif]
  · exact absurd hif (by simp)

theorem buildBiobankRecord_ok (valid : Biobank → Bool) (r : JSON)
    (b : Biobank) (h : buildBiobankRecord valid r = Except.ok b) :
    extractBiobank r = Except.ok b := by
  rw [buildBiobankRecord, except_bind_ok] at h
  obtain ⟨a, ha, hif⟩ := h
  split at hif
  · simp only [pure_ok, Except.ok.injEq] at hif
    rw [ha, hif]
  · exact absurd hif (by simp)

theorem extractNetwork_parts (r : JSON) (n : Network)
    (h : extractNetwork r = Except.ok n) :
    n.managing_biobank_id = JSON.str "bbmri-eric:ID:AT_MUG" ∧
    computeTopics r = Except.ok n.common_collaboration_topics ∧
    pyGetD r "id" (JSON.str "") = Except.ok n.identifier := by
  simp only [extractNetwork, except_bind_ok, pure_ok, Except.ok.injEq] at h
  obtain ⟨a1, h1, a2, h2, a3, h3, a4, h4, a5, h5, a6, h6, a7, h7, a8, h8,
    a9, h9, a10, h10, hn⟩ := h
  subst hn
  exact ⟨rfl, h7, h1⟩

theorem populateNetworkGo_mem (valid : Network → Bool) :
    ∀ (recs : List JSON) (nets : List Network),
      populateNetworkGo valid recs = Except.ok nets →
      ∀ n ∈ nets, ∃ r, buildNetworkRecord valid r = Except.ok n := by
  intro recs
  induction recs with
  | nil =>
      intro nets h n hn
      simp only [populateNetworkGo, Except.ok.injEq] at h
      subst h
      cases hn
  | cons r rest ih =>
      intro nets h n hn
      rw [populateNetworkGo, except_bind_ok] at h
      obtain ⟨a, ha, h⟩ := h
      rw [except_bind_ok] at h
      obtain ⟨others, hothers, h⟩ := h
      simp only [pure_ok, Except.ok.injEq] at h
      subst h
      rcases List.mem_cons.mp hn with hn | hn
      · exact ⟨r, by rw [ha, hn]⟩
      · exact ih others hothers n hn

theorem populateNetwork_ok_ex (valid : Network → Bool) (payload : JSON)
    (nets : List Network)
    (h : populate_network_from_json valid payload = Except.ok nets) :
    ∃ recs, populateNetworkGo valid recs = Except.ok nets := by
  rw [populate_network_from_json, except_bind_ok] at h
  obtain ⟨a1, _, h⟩ := h
  rw [except_bind_ok] at h
  obtain ⟨a2, _, h⟩ := h
  rw [except_bind_ok] at h
  obtain ⟨recs, _, h⟩ := h
  exact ⟨recs, h⟩

theorem populateCollection_ok_ex (valid : Collection → Bool) (payload : JSON)
    (cols : List Collection)
    (h : populate_collection_from_json valid payload = Except.ok cols) :
    ∃ recs, populateCollectionGo valid recs = Except.ok cols := by
  rw [populate_collection_from_json, except_bind_ok] at h
  obtain ⟨a1, _, h⟩ := h
  rw [except_bind_ok] at h
  obtain ⟨a2, _, h⟩ := h
  rw [except_bind_ok] at h
  obtain ⟨recs, _, h⟩ := h
  exact ⟨recs, h⟩

/-- C6: for every non-2xx response to the source fetch (for example
HTTP 503), each sync function (`sync_biobanks`, `sync_networks`,
`sync_collections`) reports the fetch failure with the status code and
the response body, invokes no entity builder and publishes no entity,
with no retry (each sync function consumes its single response). -/
theorem c6_non2xx_fetch_failure
    (vb : Biobank → Bool) (vn : Network → Bool) (vc : Collection → Bool)
    (resp : HTTPResponse)
    (h : resp.status_code < 200 ∨ 300 ≤ resp.status_code) :
    sync_biobanks vb resp = SyncResult.fetchFailed resp.status_code resp.text ∧
    sync_networks vn resp = SyncResult.fetchFailed resp.status_code resp.text ∧
    sync_collections vc resp = SyncResult.fetchFailed resp.status_code resp.text := by
  have hne : ¬ resp.status_code = 200 := by omega
  refine ⟨?_, ?_, ?_⟩ <;>
    simp [sync_biobanks, sync_networks, sync_collections, hne]

/-- C6 witness: an HTTP 503 response makes `sync_collections` report
the failure with status 503 and the body, publishing nothing. -/
theorem c6_witness :
    sync_collections (fun _ => true)
        { status_code := 503, text := "Service Unavailable", jsonBody := JSON.null } =
      SyncResult.fetchFailed 503 "Service Unavailable" :=
  (c6_non2xx_fetch_failure (fun _ => true) (fun _ => true) (fun _ => true)
    { status_code := 503, text := "Service Unavailable", jsonBody := JSON.null }
    (Or.inr (by decide))).2.2

/-- C8: every Network entity produced by `populate_network_from_json`
carries the hardcoded managing-biobank identifier
`"bbmri-eric:ID:AT_MUG"`, independent of the source record's
contents. -/
theorem c8_network_managing_biobank_hardcoded
    (valid : Network → Bool) (payload : JSON) (nets : List Network)
    (h : populate_network_from_json valid payload = Except.ok nets) :
    ∀ n ∈ nets, n.managing_biobank_id = JSON.str "bbmri-eric:ID:AT_MUG" := by
  intro n hn
  obtain ⟨recs, hgo⟩ := populateNetwork_ok_ex valid payload nets h
  obtain ⟨r, hr⟩ := populateNetworkGo_mem valid recs nets hgo n hn
  exact (extractNetwork_parts r n (buildNetworkRecord_ok valid r n hr)).1

/-- C8 witness: the network built from the one-record payload
`c8payload` references the hardcoded managing biobank. -/
theorem c8_witness :
    (idOnlyNetwork "net1").managing_biobank_id = JSON.str "bbmri-eric:ID:AT_MUG" :=
  c8_network_managing_biobank_hardcoded (fun _ => true) c8payload
    [idOnlyNetwork "net1"] rfl (idOnlyNetwork "net1") (List.mem_singleton.mpr rfl)

theorem ok_bind {ε α β : Type} (a : α) (f : α → Except ε β) :
    ((Except.ok a : Except ε α) >>= f) = f a := rfl

theorem splitCharsAux_ne_nil (sep : Char) :
    ∀ (cs acc : List Char), splitCharsAux sep cs acc ≠ [] := by
  intro cs
  induction cs with
  | nil => intro acc; simp [splitCharsAux]
  | cons c cs ih =>
      intro acc
      rw [splitCharsAux]
      split
      · simp
      · exact ih (acc ++ [c])

theorem joinChars_splitCharsAux (sep : Char) :
    ∀ (cs acc : List Char),
      joinChars sep (splitCharsAux sep cs acc) = acc ++ cs := by
  intro cs
  induction cs with
  | nil => intro acc; simp [splitCharsAux, joinChars]
  | cons c cs ih =>
      intro acc
      rw [splitCharsAux]
      split
      · rename_i hc
        cases hxs : splitCharsAux sep cs [] with
        | nil => exact absurd hxs (splitCharsAux_ne_nil sep cs [])
        | cons y ys =>
            have hj : joinChars sep (acc :: y :: ys) =
                acc ++ sep :: joinChars sep (y :: ys) := rfl
            rw [hj, ← hxs, ih []]
            simp [hc]
      · rw [ih (acc ++ [c])]
        simp

theorem pyJoin_pySplit (sep : Char) (s : String) :
    pyJoin sep (pySplit sep s) = s := by
  unfold pyJoin pySplit
  rw [List.map_map]
  have hmap : (String.data ∘ String.mk) = id := funext fun l => rfl
  rw [hmap, List.map_id, joinChars_splitCharsAux]
  cases s
  rfl

theorem pyGetD_of_pyGet_ne_null (r : JSON) (k : String) (w d : JSON)
    (h : pyGet r k = Except.ok w) (hw : w ≠ JSON.null) :
    pyGetD r k d = Except.ok w := by
  cases r with
  | obj fs =>
      simp only [pyGet, pyGetD, Except.ok.injEq] at h ⊢
      cases hl : lookupField fs k with
      | none =>
          rw [hl] at h
          simp only [Option.getD_none] at h
          exact absurd h.symm hw
      | some x =>
          rw [hl] at h
          simpa using h
  | null => simp [pyGet, pyGetD] at h
  | bool b => simp [pyGet, pyGetD] at h
  | num n => simp [pyGet, pyGetD] at h
  | str s => simp [pyGet, pyGetD] at h
  | arr xs => simp [pyGet, pyGetD] at h

theorem computeTopics_str (r : JSON) (s : String)
    (h : pyGet r "common_network_elements" = Except.ok (JSON.str s))
    (hs : s ≠ "") :
    computeTopics r = Except.ok (pySplit ',' s) := by
  have hd : pyGetD r "common_network_elements" (JSON.str "") =
      Except.ok (JSON.str s) :=
    pyGetD_of_pyGet_ne_null r _ _ _ h (by simp)
  have ht : truthy (JSON.str s) = true := by
    simp [truthy, hs]
  rw [computeTopics, h, ok_bind]
  simp only [ht, if_true]
  rw [hd, ok_bind]
  rfl

theorem computeTopics_falsy (r : JSON) (v : JSON)
    (h : pyGet r "common_network_elements" = Except.ok v)
    (hv : truthy v = false) :
    computeTopics r = Except.ok [] := by
  rw [computeTopics, h, ok_bind]
  simp only [hv, if_false]
  rfl

/-- C10: for every Network record whose `common_network_elements` field
is a non-empty string `s`, the derived `common_collaboration_topics`
list is exactly `s` split on `","` with no trimming and no dropping of
empty segments, so joining the topics back with `","` yields `s`; for a
falsy field value (absent, empty or otherwise falsy) the list is
empty. -/
theorem c10_topics_exact_split :
    (∀ (r : JSON) (n : Network) (s : String),
        pyGet r "common_network_elements" = Except.ok (JSON.str s) → s ≠ "" →
        extractNetwork r = Except.ok n →
        n.common_collaboration_topics = pySplit ',' s ∧
          pyJoin ',' n.common_collaboration_topics = s) ∧
    (∀ (r : JSON) (n : Network) (v : JSON),
        pyGet r "common_network_elements" = Except.ok v → truthy v = false →
        extractNetwork r = Except.ok n →
        n.common_collaboration_topics = []) := by
  constructor
  · intro r n s h hs hex
    have h2 := (extractNetwork_parts r n hex).2.1
    rw [computeTopics_str r s h hs] at h2
    have heq := (Except.ok.inj h2).symm
    exact ⟨heq, by rw [heq]; exact pyJoin_pySplit ',' s⟩
  · intro r n v h hv hex
    have h2 := (extractNetwork_parts r n hex).2.1
    rw [computeTopics_falsy r v h hv] at h2
    exact (Except.ok.inj h2).symm

/-- C10 witness: the record `c10rec` with field `"a, b,,c"` yields the
untrimmed topic list, and the comma join restores the source string. -/
theorem c10_witness :
    c10net.common_collaboration_topics = pySplit ',' "a, b,,c" ∧
      pyJoin ',' c10net.common_collaboration_topics = "a, b,,c" :=
  c10_topics_exact_split.1 c10rec c10net "a, b,,c" rfl (by decide) rfl

theorem computeGenders_replicate :
    ∀ (sex : List JSON) (gs : List Gender),
      computeGenders sex = Except.ok gs →
      gs = List.replicate (countNonNullNames sex) Gender.UNKNOWN := by
  intro sex
  induction sex with
  | nil =>
      intro gs h
      simp only [computeGenders, Except.ok.injEq] at h
      subst h
      rfl
  | cons g rest ih =>
      intro gs h
      rw [computeGenders, except_bind_ok] at h
      obtain ⟨v, hv, h⟩ := h
      by_cases hnull : isNone v
      · have hveq : v = JSON.null := by
          cases v <;> first | rfl | simp [isNone] at hnull
        subst hveq
        rw [if_pos hnull] at h
        have hcount : countNonNullNames (g :: rest) = countNonNullNames rest := by
          rw [countNonNullNames, hv]
        rw [hcount]
        exact ih gs h
      · rw [if_neg hnull] at h
        rw [except_bind_ok] at h
        obtain ⟨name, hname, h⟩ := h
        rw [except_bind_ok] at h
        obtain ⟨up, hup, h⟩ := h
        rw [except_bind_ok] at h
        obtain ⟨mem, hmem, h⟩ := h
        rw [except_bind_ok] at h
        obtain ⟨others, hothers, h⟩ := h
        simp only [pure_ok, Except.ok.injEq] at h
        subst h
        rw [genderToken_unknown] at hup
        have hupok : pyUpper (JSON.str "UNKNOWN") = Except.ok "UNKNOWN" := rfl
        rw [hupok] at hup
        have hupeq : up = "UNKNOWN" := (Except.ok.inj hup).symm
        subst hupeq
        have hmemok : genderIndex "UNKNOWN" = Except.ok Gender.UNKNOWN := rfl
        rw [hmemok] at hmem
        have hmemeq : mem = Gender.UNKNOWN := (Except.ok.inj hmem).symm
        subst hmemeq
        have hcount : countNonNullNames (g :: rest) = countNonNullNames rest + 1 := by
          rw [countNonNullNames, hv]
          cases v
          · simp [isNone] at hnull
          all_goals rfl
        rw [hcount, List.replicate_succ, ih others hothers]

theorem extractCollection_parts (r : JSON) (c : Collection)
    (h : extractCollection r = Except.ok c) :
    pyGetD r "id" (JSON.str "") = Except.ok c.identifier ∧
    ∃ sexList, computeGenders sexList = Except.ok c.genders := by
  simp only [extractCollection, except_bind_ok, pure_ok, Except.ok.injEq] at h
  obtain ⟨a1, h1, a2, h2, a3, h3, a4, h4, a5, h5, a6, h6, a7, h7, a8, h8,
    a9, h9, a10, h10, a11, h11, a12, h12, a13, h13, a14, h14, a15, h15,
    a16, h16, a17, h17, a18, h18, a19, h19, a20, h20, a21, h21, a22, h22,
    a23, h23, a24, h24, hc⟩ := h
  subst hc
  exact ⟨h1, a20, h21⟩

theorem populateCollectionGo_mem (valid : Collection → Bool) :
    ∀ (recs : List JSON) (cols : List Collection),
      populateCollectionGo valid recs = Except.ok cols →
      ∀ c ∈ cols, ∃ r, buildCollectionRecord valid r = Except.ok (some c) := by
  intro recs
  induction recs with
  | nil =>
      intro cols h c hc
      simp only [populateCollectionGo, Except.ok.injEq] at h
      subst h
      cases hc
  | cons r rest ih =>
      intro cols h c hc
      rw [populateCollectionGo, except_bind_ok] at h
      obtain ⟨o, ho, h⟩ := h
      rw [except_bind_ok] at h
      obtain ⟨others, hothers, h⟩ := h
      cases o with
      | some c2 =>
          simp only [pure_ok, Except.ok.injEq] at h
          subst h
          rcases List.mem_cons.mp hc with hc | hc
          · exact ⟨r, by rw [ho, hc]⟩
          · exact ih others hothers c hc
      | none =>
          simp only [pure_ok, Except.ok.injEq] at h
          subst h
          exact ih others hothers c hc

/-- C1: for every Collections payload, every gender the builder derives
resolves to the `UNKNOWN` member regardless of the token's value — the
token expression of the comprehension (src/main.py line 42) is the
constant `"UNKNOWN"` because its synonym check `== "NAV" or "NASK"`
always evaluates true — and every sex entry whose `name` is present and
non-null contributes exactly one such `UNKNOWN` member. -/
theorem c1_gender_mapping_always_unknown :
    (∀ (v : JSON), genderToken v = JSON.str "UNKNOWN") ∧
    (∀ (sex : List JSON) (gs : List Gender),
        computeGenders sex = Except.ok gs →
        gs = List.replicate (countNonNullNames sex) Gender.UNKNOWN) ∧
    (∀ (valid : Collection → Bool) (payload : JSON) (cols : List Collection),
        populate_collection_from_json valid payload = Except.ok cols →
        ∀ c ∈ cols, ∀ g ∈ c.genders, g = Gender.UNKNOWN) := by
  refine ⟨genderToken_unknown, computeGenders_replicate, ?_⟩
  intro valid payload cols h c hc g hg
  obtain ⟨recs, hgo⟩ := populateCollection_ok_ex valid payload cols h
  obtain ⟨r, hr⟩ := populateCollectionGo_mem valid recs cols hgo c hc
  obtain ⟨sexList, hsex⟩ :=
    (extractCollection_parts r c (buildCollectionRecord_ok_some valid r c hr)).2
  have := computeGenders_replicate sexList c.genders hsex
  rw [this] at hg
  exact List.eq_of_mem_replicate hg

/-- C1 witness: the sex list `[{"name": "FEMALE"}, {"name": "NAV"}]` has
two entries with a present non-null name, and both resolve to
`UNKNOWN`. -/
theorem c1_witness :
    ([Gender.UNKNOWN, Gender.UNKNOWN] : List Gender) =
      List.replicate
        (countNonNullNames [JSON.obj [("name", JSON.str "FEMALE")],
                            JSON.obj [("name", JSON.str "NAV")]])
        Gender.UNKNOWN :=
  c1_gender_mapping_always_unknown.2.1
    [JSON.obj [("name", JSON.str "FEMALE")], JSON.obj [("name", JSON.str "NAV")]]
    [Gender.UNKNOWN, Gender.UNKNOWN] rfl

theorem error_bind {ε α β : Type} (e : ε) (f : α → Except ε β) :
    ((Except.error e : Except ε α) >>= f) = Except.error e := rfl

/-- C2 counterexample: a two-record Networks payload where exactly one
record (the first, with an empty `id`) fails the destination model's
validation; the claim demands N−K = 1 entities, but
`populate_network_from_json` propagates the first `ValueError` and
returns no batch at all, although the second record alone builds
fine. -/
theorem c2_counterexample :
    populate_network_from_json rejectEmptyIdNetwork c2payload =
      Except.error "ValueError" ∧
    buildNetworkRecord rejectEmptyIdNetwork (JSON.obj [("id", JSON.str "")]) =
      Except.error "ValueError" ∧
    buildNetworkRecord rejectEmptyIdNetwork (idOnlyRecord "N2") =
      Except.ok (idOnlyNetwork "N2") :=
  ⟨rfl, rfl, rfl⟩

/-- C2 (amended): only `populate_collection_from_json` implements the
partial-failure batch — when its loop completes, the entity count is
N−K for K records skipped on `ValueError` — while
`populate_network_from_json` and `populate_biobank_from_json` have no
per-record handler: the first record whose construction fails aborts
the whole batch with that error. -/
theorem c2_partial_failure_amended :
    (∀ (valid : Collection → Bool) (recs : List JSON) (cols : List Collection),
        populateCollectionGo valid recs = Except.ok cols →
        cols.length = recs.length - countSkippedCollections valid recs) ∧
    (∀ (valid : Network → Bool) (r : JSON) (rest : List JSON) (e : String),
        buildNetworkRecord valid r = Except.error e →
        populateNetworkGo valid (r :: rest) = Except.error e) ∧
    (∀ (valid : Biobank → Bool) (r : JSON) (rest : List JSON) (e : String),
        buildBiobankRecord valid r = Except.error e →
        populateBiobankGo valid (r :: rest) = Except.error e) := by
  refine ⟨?_, ?_, ?_⟩
  · intro valid recs
    induction recs with
    | nil =>
        intro cols h
        simp only [populateCollectionGo, Except.ok.injEq] at h
        subst h
        rfl
    | cons r rest ih =>
        intro cols h
        rw [populateCollectionGo, except_bind_ok] at h
        obtain ⟨o, ho, h⟩ := h
        rw [except_bind_ok] at h
        obtain ⟨others, hothers, h⟩ := h
        have hle : countSkippedCollections valid rest ≤ rest.length :=
          List.countP_le_length _
        have hlen := ih others hothers
        cases o with
        | some c =>
            simp only [pure_ok, Except.ok.injEq] at h
            subst h
            have hcnt : countSkippedCollections valid (r :: rest) =
                countSkippedCollections valid rest := by
              rw [countSkippedCollections, List.countP_cons]
              simp only [ho]
              rw [countSkippedCollections]
              simp
            rw [hcnt]
            simp only [List.length_cons]
            omega
        | none =>
            simp only [pure_ok, Except.ok.injEq] at h
            subst h
            have hcnt : countSkippedCollections valid (r :: rest) =
                countSkippedCollections valid rest + 1 := by
              rw [countSkippedCollections, List.countP_cons]
              simp only [ho]
              rw [countSkippedCollections]
              simp
            rw [hcnt]
            simp only [List.length_cons]
            omega
  · intro valid r rest e h
    rw [populateNetworkGo, h, error_bind]
  · intro valid r rest e h
    rw [populateBiobankGo, h, error_bind]

/-- C2 witness: of the two records of `c2payload`, the collection loop
(which does handle `ValueError`) keeps exactly N−K = 2−1 = 1 entity. -/
theorem c2_witness :
    ([idOnlyCollection "N2"] : List Collection).length =
      ([JSON.obj [("id", JSON.str "")], idOnlyRecord "N2"] : List JSON).length -
        countSkippedCollections rejectEmptyIdCollection
          [JSON.obj [("id", JSON.str "")], idOnlyRecord "N2"] :=
  c2_partial_failure_amended.1 rejectEmptyIdCollection
    [JSON.obj [("id", JSON.str "")], idOnlyRecord "N2"]
    [idOnlyCollection "N2"] rfl

/-- C3: on a payload whose first Collection record has the unmappable
materials token `DNA`, the enum indexing raises `KeyError` outside the
`try`, so the whole batch aborts — the second, well-formed record
produces nothing, contradicting the claimed record-level skip (the
token is indeed never silently defaulted, but the failure is not
contained to the record). -/
theorem c3_unmappable_material_aborts_batch :
    populate_collection_from_json (fun _ => true) c3payload =
      Except.error "KeyError" ∧
    storageTemperatureIndex (JSON.str "DNA") = Except.error "KeyError" ∧
    buildCollectionRecord (fun _ => true) (idOnlyRecord "c2") =
      Except.ok (some (idOnlyCollection "c2")) :=
  ⟨rfl, rfl, rfl⟩

/-- C4: the §8 example record does not map to a Collection entity at
all — the materials comprehension indexes the `StorageTemperature`
enumeration with `PLASMA` and raises `KeyError`; and even a token that
is a storage-temperature member would then crash line 53's
`material.get("name")` on an enum member with `AttributeError`. -/
theorem c4_example_record_raises :
    populate_collection_from_json (fun _ => true) c4payload =
      Except.error "KeyError" ∧
    storageTemperatureIndex (JSON.str "PLASMA") = Except.error "KeyError" ∧
    computeMaterialTypeCodes [StorageTemperature.temperatureRoom] =
      Except.error "AttributeError" :=
  ⟨rfl, rfl, rfl⟩

/-- C5 counterexample: a record whose `country` key is present but null
(not a mapping) makes field extraction raise `AttributeError` instead
of returning the declared default `"unknown"`. -/
theorem c5_counterexample :
    buildCollectionRecord (fun _ => true)
        (JSON.obj [("id", JSON.str "c1"), ("country", JSON.null)]) =
      Except.error "AttributeError" := rfl

/-- C5 (amended): extraction on mapping nodes is total — an absent key
at any depth yields the declared field-specific default, and a record
with every optional field absent builds with all defaults — but a node
along an extraction path that is present and not itself a mapping
raises `AttributeError` rather than returning the default. -/
theorem c5_defaulting_amended :
    (∀ (fs : List (String × JSON)) (k : String) (d : JSON),
        pyGetD (JSON.obj fs) k d = Except.ok ((lookupField fs k).getD d)) ∧
    (∀ (v : JSON) (k : String) (d : JSON), (∀ fs, v ≠ JSON.obj fs) →
        pyGetD v k d = Except.error "AttributeError") ∧
    buildCollectionRecord (fun _ => true) (JSON.obj []) =
      Except.ok (some (idOnlyCollection "")) ∧
    buildBiobankRecord (fun _ => true) (JSON.obj []) =
      Except.ok (namedOnlyBiobank "") := by
  refine ⟨fun fs k d => rfl, ?_, rfl, rfl⟩
  intro v k d hv
  cases v with
  | obj fs => exact absurd rfl (hv fs)
  | null => rfl
  | bool b => rfl
  | num n => rfl
  | str s => rfl
  | arr xs => rfl

/-- C5 witness: a present non-mapping node raises. -/
theorem c5_witness :
    pyGetD (JSON.str "Austria") "name" (JSON.str "unknown") =
      Except.error "AttributeError" :=
  c5_defaulting_amended.2.1 (JSON.str "Austria") "name" (JSON.str "unknown")
    (fun _ h => JSON.noConfusion h)

/-- C7 counterexample: from a Biobank record with no `id`, the core
builds and `sync_biobanks` publishes an entity whose identifier is the
empty string (under an external validation that accepts it — the core
itself enforces nothing). -/
theorem c7_counterexample :
    sync_biobanks (fun _ => true)
        { status_code := 200, text := "", jsonBody := c7payload } =
      SyncResult.completed [namedOnlyBiobank "Biobank Graz"] ∧
    (namedOnlyBiobank "Biobank Graz").identifier = JSON.str "" :=
  ⟨rfl, rfl⟩

theorem extractBiobank_parts (r : JSON) (b : Biobank)
    (h : extractBiobank r = Except.ok b) :
    pyGetD r "id" (JSON.str "") = Except.ok b.identifier := by
  simp only [extractBiobank, except_bind_ok, pure_ok, Except.ok.injEq] at h
  obtain ⟨a1, h1, a2, h2, a3, h3, a4, h4, a5, h5, a6, h6, a7, h7, a8, h8,
    a9, h9, a10, h10, a11, h11, a12, h12, a13, h13, hb⟩ := h
  subst hb
  exact h1

/-- C7 (amended): the core does not enforce identifier non-emptiness —
a record whose `id` field is absent is mapped with the identifier
defaulted to the empty string, so any entity a builder produces from it
(and hence any entity published for it) carries the empty-string
identifier; rejecting it is left entirely to the external model
library's validation. -/
theorem c7_no_core_identifier_enforcement :
    (∀ (valid : Biobank → Bool) (fs : List (String × JSON)) (b : Biobank),
        lookupField fs "id" = none →
        buildBiobankRecord valid (JSON.obj fs) = Except.ok b →
        b.identifier = JSON.str "") ∧
    (∀ (valid : Network → Bool) (fs : List (String × JSON)) (n : Network),
        lookupField fs "id" = none →
        buildNetworkRecord valid (JSON.obj fs) = Except.ok n →
        n.identifier = JSON.str "") ∧
    (∀ (valid : Collection → Bool) (fs : List (String × JSON)) (c : Collection),
        lookupField fs "id" = none →
        buildCollectionRecord valid (JSON.obj fs) = Except.ok (some c) →
        c.identifier = JSON.str "") := by
  refine ⟨?_, ?_, ?_⟩
  · intro valid fs b hnone h
    have hid := extractBiobank_parts _ _ (buildBiobankRecord_ok valid _ b h)
    rw [pyGetD, hnone] at hid
    exact (Except.ok.inj hid).symm
  · intro valid fs n hnone h
    have hid := (extractNetwork_parts _ n (buildNetworkRecord_ok valid _ n h)).2.2
    rw [pyGetD, hnone] at hid
    exact (Except.ok.inj hid).symm
  · intro valid fs c hnone h
    have hid :=
      (extractCollection_parts _ c (buildCollectionRecord_ok_some valid _ c h)).1
    rw [pyGetD, hnone] at hid
    exact (Except.ok.inj hid).symm

/-- C7 witness: the biobank built from the empty record carries the
empty-string identifier. -/
theorem c7_witness : (namedOnlyBiobank "").identifier = JSON.str "" :=
  c7_no_core_identifier_enforcement.1 (fun _ => true) [] (namedOnlyBiobank "")
    rfl rfl

theorem populateCollectionGo_filterMap (valid : Collection → Bool) :
    ∀ (recs : List JSON) (cols : List Collection),
      populateCollectionGo valid recs = Except.ok cols →
      cols = recs.filterMap (collectionRecordOutcome valid) := by
  intro recs
  induction recs with
  | nil =>
      intro cols h
      simp only [populateCollectionGo, Except.ok.injEq] at h
      subst h
      rfl
  | cons r rest ih =>
      intro cols h
      rw [populateCollectionGo, except_bind_ok] at h
      obtain ⟨o, ho, h⟩ := h
      rw [except_bind_ok] at h
      obtain ⟨others, hothers, h⟩ := h
      cases o with
      | some c =>
          simp only [pure_ok, Except.ok.injEq] at h
          subst h
          have hout : collectionRecordOutcome valid r = some c := by
            rw [collectionRecordOutcome, ho]
          simp only [List.filterMap_cons, hout]
          rw [ih others hothers]
      | none =>
          simp only [pure_ok, Except.ok.injEq] at h
          subst h
          have hout : collectionRecordOutcome valid r = none := by
            rw [collectionRecordOutcome, ho]
          simp only [List.filterMap_cons, hout]
          exact ih others hothers

/-- C9: the surviving entities keep exactly the source array's relative
order — the collection loop's output is the record list filter-mapped
through the per-record outcome (skipped records removed, order kept) —
and on a 200 response `sync_collections` publishes precisely that
builder output, in list order. -/
theorem c9_order_preservation :
    (∀ (valid : Collection → Bool) (recs : List JSON) (cols : List Collection),
        populateCollectionGo valid recs = Except.ok cols →
        cols = recs.filterMap (collectionRecordOutcome valid)) ∧
    (∀ (valid : Collection → Bool) (resp : HTTPResponse) (cs : List Collection),
        resp.status_code = 200 →
        populate_collection_from_json valid resp.jsonBody = Except.ok cs →
        sync_collections valid resp = SyncResult.completed cs) := by
  refine ⟨populateCollectionGo_filterMap, ?_⟩
  intro valid resp cs h200 hpop
  rw [sync_collections, if_pos h200, hpop]

/-- C9 witness: with the middle record skipped (empty identifier), the
two surviving collections appear in source order. -/
theorem c9_witness :
    ([idOnlyCollection "A", idOnlyCollection "B"] : List Collection) =
      ([idOnlyRecord "A", JSON.obj [], idOnlyRecord "B"] : List JSON).filterMap
        (collectionRecordOutcome rejectEmptyIdCollection) :=
  c9_order_preservation.1 rejectEmptyIdCollection
    [idOnlyRecord "A", JSON.obj [], idOnlyRecord "B"]
    [idOnlyCollection "A", idOnlyCollection "B"] rfl

end DirectoryFhir
